import Mathlib

/-!
Verification of the `joynosleep` daemon (src/joynosleep.c) against its
natural-language specification.

The development is a shallow embedding of the C source.  Pure helpers
(`is_button_press`, `joystick_probe`) become Lean functions over the data
they actually inspect; the stateful core (the joystick array, the inhibit
cookie, the one-shot timer, the saver-presence tracking) becomes explicit
state passing: each sd-event / sd-bus callback of the C file is a Lean
function from the engine state (plus the data the callback receives from
its environment) to a new engine state together with the list of
observable actions (bus calls) it performs.

Environment conventions, used throughout:
* File descriptors, cookies, errno values are `Nat` (no arithmetic is
  performed on them, so no wrap-around modelling is needed).
* `read(2)` outcomes are delivered to `on_joystick_read` as a value of
  `ReadRes`: either a full `input_event` record, or "not a full record"
  together with the errno value the C code observes (this covers both a
  failing read and a short read with a stale errno, which the C code
  cannot distinguish: it tests `r != sizeof(event)` and then reads
  `errno`).
* Bus method calls succeed in the event model; the saver is assumed to
  return a nonzero cookie on `Inhibit`, following the specification's
  data model ("Value 0 is reserved as no active inhibition").
-/

/-- MAX_JOYSTICKS from joynosleep.c: capacity of the static joystick array. -/
def MAX_JOYSTICKS : Nat := 16

/-- EV_KEY from linux/input-event-codes.h, as used by `is_button_press`. -/
def EV_KEY : Nat := 1

/-- ENODEV errno value, the only errno `on_joystick_read` special-cases. -/
def ENODEV : Nat := 19

/-- SAVER from joynosleep.c: the screen saver's well-known bus name. -/
def SAVER : String := "org.freedesktop.ScreenSaver"

/-- Embedding of `struct joystick`.  `srcUserdata` models the userdata
pointer stored in the record's sd_event I/O source: in C it is the address
of the array slot holding the record; here it is the slot's index. -/
structure joystick where
  fd : Nat
  devname : String
  name : String
  srcUserdata : Nat
  n_events : Nat
deriving DecidableEq

instance : Inhabited joystick := ⟨⟨0, "", "", 0, 0⟩⟩

/-- Embedding of `struct input_event`, restricted to the fields the program
inspects (`type` and `value`; `code` is carried but never read). -/
structure input_event where
  type : Nat
  code : Nat
  value : Int
deriving DecidableEq

/-- Embedding of `is_button_press`:
`event->type == EV_KEY && event->value == 0`. -/
def is_button_press (event : input_event) : Bool :=
  event.type == EV_KEY && event.value == 0

/-- Model of an `sd_device` as seen by `joystick_probe`: its property
table, its device node (none when `sd_device_get_devname` fails), and its
parent's property table (none when `sd_device_get_parent` fails). -/
structure SdDevice where
  props : List (String × String)
  devnode : Option String
  parentProps : Option (List (String × String))
deriving DecidableEq

/-- Model of `sd_device_get_property_value`: on success the out pointer is
set to the property's value (a non-null C string, possibly empty); when
the property is absent the call fails with a negative errno. -/
def sd_device_get_property_value (ps : List (String × String)) (key : String) :
    Except Int String :=
  match ps.lookup key with
  | some v => Except.ok v
  | none => Except.error (-2)

/-- Model of `strncmp(v, "/dev/input/event", sizeof(event_pfx)-1) == 0`:
the node name begins with the evdev prefix. -/
def starts_with_event (v : String) : Bool :=
  "/dev/input/event".data.isPrefixOf v.data

/-- Embedding of `joystick_probe`.  Return values mirror the C contract:
`.error r` for a failing sd-device call, `.ok none` for "not a joystick",
`.ok (some (devname, name))` for an accepted device.

Note on the display-name fallback: the C code is
`r = sd_device_get_property_value(parent, "NAME", name);`
`if (r < 0 || !name || !name[0]) *name = v;`
where `name` has type `const char **`.  `name` is the out-parameter
pointer itself (never null here) and `name[0]` is `*name`, the value
pointer, which is non-null whenever the call succeeded.  The condition is
therefore equivalent to `r < 0`: the first *character* of the property is
never examined, so an empty-string `NAME` property is used verbatim. -/
def joystick_probe (d : SdDevice) : Except Int (Option (String × String)) :=
  match sd_device_get_property_value d.props "ID_INPUT_JOYSTICK" with
  | Except.error r => Except.error r
  | Except.ok v =>
    if v ≠ "1" then Except.ok none
    else
      match d.devnode with
      | none => Except.error (-2)
      | some v =>
        if ¬ starts_with_event v then Except.ok none
        else
          match d.parentProps with
          | none => Except.error (-2)
          | some pps =>
            match sd_device_get_property_value pps "NAME" with
            | Except.error _ => Except.ok (some (v, v))
            | Except.ok nm => Except.ok (some (v, nm))

/-- Concrete device record: a joystick whose parent's `NAME` property is
present but is the empty string. -/
def dev_empty_name : SdDevice :=
  { props := [("ID_INPUT_JOYSTICK", "1")]
    devnode := some "/dev/input/event7"
    parentProps := some [("NAME", "")] }

/-- Concrete device record: a joystick whose parent has no `NAME`
property at all. -/
def dev_no_name : SdDevice :=
  { props := [("ID_INPUT_JOYSTICK", "1")]
    devnode := some "/dev/input/event7"
    parentProps := some [] }

/-- Successful tail of `joystick_add`: append a fresh record at slot
`js.length`; the new I/O source's userdata is the address of that slot. -/
def joystick_add_ok (js : List joystick) (fd : Nat) (dn nm : String) :
    List joystick :=
  js ++ [{ fd := fd, devname := dn, name := nm,
           srcUserdata := js.length, n_events := 0 }]

/-- Possible outcomes of `joystick_add`. -/
inductive AddResult where
  /-- record appended; `++n_joysticks` performed -/
  | ok (js : List joystick)
  /-- `open(2)` failed: logged, nothing registered, set unchanged -/
  | openFailed (js : List joystick)
  /-- `sd_event_add_io` failed: fd closed, logged, set unchanged -/
  | ioAddFailed (js : List joystick)
  /-- `assert(n_joysticks < MAX_JOYSTICKS)` failed: the process aborts -/
  | assertAbort
deriving DecidableEq

/-- Embedding of `joystick_add`.  The C function begins with
`assert(n_joysticks < MAX_JOYSTICKS);` — at capacity the process aborts
before anything else happens.  `openRes` is the outcome of
`open(devname, O_RDONLY|O_CLOEXEC|O_NONBLOCK)` (the returned fd, or none
on failure) and `ioOk` the outcome of `sd_event_add_io`. -/
def joystick_add (js : List joystick) (openRes : Option Nat) (ioOk : Bool)
    (dn nm : String) : AddResult :=
  if js.length < MAX_JOYSTICKS then
    match openRes with
    | none => AddResult.openFailed js
    | some fd =>
      if ioOk then AddResult.ok (joystick_add_ok js fd dn nm)
      else AddResult.ioAddFailed js
  else AddResult.assertAbort

/-- A joystick set already holding MAX_JOYSTICKS (= 16) records. -/
def full16 : List joystick :=
  (List.range 16).map
    (fun i => { fd := i, devname := "jsdev", name := "pad",
                srcUserdata := i, n_events := 0 })

/-- Embedding of `joystick_destroy`, the destroy callback of a record's
I/O source, called with the record at slot `n`.  It decrements the size
and, when a middle slot was freed, copies the previous last record into
that slot and repoints that record's source userdata at its new address.
(The C function also `assert`s the size is positive; the callback only
ever runs for a registered record, and the empty case below is never
reached from the verified call sites.) -/
def joystick_destroy (js : List joystick) (n : Nat) : List joystick :=
  if js.length = 0 then js
  else if n < js.length - 1 then
    (js.set n { js.getD (js.length - 1) default with srcUserdata := n }).dropLast
  else js.dropLast

/-- Embedding of `joystick_del`: logs the record and releases its I/O
source (`sd_event_source_disable_unref`), whose destroy callback performs
the compaction.  `i` is the slot index of the record. -/
def joystick_del (js : List joystick) (i : Nat) : List joystick :=
  joystick_destroy js i

/-- Embedding of `joystick_del_all`:
`while (n_joysticks) joystick_del(&g_joysticks[n_joysticks - 1]);`. -/
def joystick_del_all (js : List joystick) : List joystick :=
  if h : js.length = 0 then js
  else joystick_del_all (joystick_del js (js.length - 1))
termination_by js.length
decreasing_by
  unfold joystick_del joystick_destroy
  rw [if_neg h, if_neg (Nat.lt_irrefl _)]
  rw [List.length_dropLast]
  omega

/-- Iteration count of the `joystick_del_all` loop. -/
def del_all_iters (js : List joystick) : Nat :=
  if h : js.length = 0 then 0
  else del_all_iters (joystick_del js (js.length - 1)) + 1
termination_by js.length
decreasing_by
  unfold joystick_del joystick_destroy
  rw [if_neg h, if_neg (Nat.lt_irrefl _)]
  rw [List.length_dropLast]
  omega

/-- `++j->n_events` at slot `i` (out-of-range `i` leaves the list as is;
the callback only runs for registered slots). -/
def bump_events : List joystick → Nat → List joystick
  | [], _ => []
  | j :: js, 0 => { j with n_events := j.n_events + 1 } :: js
  | j :: js, n + 1 => j :: bump_events js n

/-- Event counter of the record at slot `i` (0 when out of range). -/
def n_events_at (js : List joystick) (i : Nat) : Nat :=
  (js.getD i default).n_events

/-- Operations on the Joystick Set, for the add/remove-sequence claims.
`add` carries the fd that `open(2)` returned together with the probed
node path and display name; `remove` carries the slot index of the record
whose I/O source is released. -/
inductive JOp where
  | add (fd : Nat) (devname name : String)
  | remove (i : Nat)
deriving DecidableEq

/-- File descriptors of the active records, in slot order. -/
def fds (js : List joystick) : List Nat :=
  js.map (fun j => j.fd)

/-- Apply one set operation: `add` is the successful tail of
`joystick_add`, `remove` is `joystick_del` (source release running the
`joystick_destroy` compaction). -/
def applyOp (js : List joystick) : JOp → List joystick
  | JOp.add fd dn nm => joystick_add_ok js fd dn nm
  | JOp.remove i => joystick_del js i

/-- Apply a sequence of set operations, oldest first. -/
def applyOps (js : List joystick) (ops : List JOp) : List joystick :=
  ops.foldl applyOp js

/-- Side conditions under which an operation occurs in the running
program: an add happens below capacity (above it the process has already
aborted on the assert) and with a descriptor `open(2)` freshly returned,
hence distinct from every descriptor already open in the set; a remove
targets a registered slot. -/
def opGuard (js : List joystick) : JOp → Prop
  | JOp.add fd _ _ => js.length < MAX_JOYSTICKS ∧ fd ∉ fds js
  | JOp.remove i => i < js.length

/-- A sequence of set operations each of which satisfies its guard in the
state it is applied to. -/
inductive ValidOps : List joystick → List JOp → Prop where
  | nil (js : List joystick) : ValidOps js []
  | cons {js : List joystick} {op : JOp} {ops : List JOp} :
      opGuard js op → ValidOps (applyOp js op) ops → ValidOps js (op :: ops)

/-- Number of adds in an operation sequence. -/
def countAdds : List JOp → Nat
  | [] => 0
  | JOp.add _ _ _ :: ops => countAdds ops + 1
  | JOp.remove _ :: ops => countAdds ops

/-- Number of removes in an operation sequence. -/
def countRemoves : List JOp → Nat
  | [] => 0
  | JOp.add _ _ _ :: ops => countRemoves ops
  | JOp.remove _ :: ops => countRemoves ops + 1

/-- Every active record's I/O-source userdata points at the slot the
record currently occupies (`js.getD i default` is the record in slot
`i`). -/
def BackPtrOk (js : List joystick) : Prop :=
  ∀ i, i < js.length → (js.getD i default).srcUserdata = i

/-- No two active records share a file descriptor. -/
def FdsDistinct (js : List joystick) : Prop :=
  ∀ i j, i < js.length → j < js.length → i ≠ j →
    (js.getD i default).fd ≠ (js.getD j default).fd

/-- Concrete operation sequence used to instantiate the set-invariant
theorem: two adds followed by a remove of slot 0. -/
def ops_w : List JOp :=
  [JOp.add 3 "/dev/input/event3" "PadA",
   JOp.add 5 "/dev/input/event5" "PadB",
   JOp.remove 0]

/-- Observable actions of the Activity Engine.  `inhibit`/`uninhibit` are
the saver bus calls; `saverGone` marks the processing of a
saver-disappeared notification (the "screen saver disappeared" log line),
which is not a bus call but is the alternative matcher for an open
inhibit. -/
inductive Act where
  | inhibit (c : Nat)
  | uninhibit (c : Nat)
  | saverGone
deriving DecidableEq

/-- Whether an inhibit cookie is live after one more observable action. -/
def actStep (_b : Bool) (a : Act) : Bool :=
  match a with
  | Act.inhibit _ => true
  | Act.uninhibit _ => false
  | Act.saverGone => false

/-- Whether an inhibit cookie is live after a run of actions, starting
from liveness `b`. -/
def liveAcc (b : Bool) (tr : List Act) : Bool :=
  tr.foldl actStep b

/-- Whether an inhibit cookie is live after a trace (starting from none). -/
def liveAfter (tr : List Act) : Bool :=
  liveAcc false tr

/-- Structural well-matching of a trace: an `inhibit` is only ever issued
while no inhibit is live, i.e. every previous `inhibit` was matched by an
`uninhibit` or a saver disappearance first. -/
def okTrace : Bool → List Act → Prop
  | _, [] => True
  | b, Act.inhibit _ :: tr => b = false ∧ okTrace true tr
  | _, Act.uninhibit _ :: tr => okTrace false tr
  | _, Act.saverGone :: tr => okTrace false tr

/-- The claim's phrasing of matching: at every `inhibit` in the trace, no
inhibit issued earlier is still live — every earlier `Inhibit` was matched
by a subsequent `UnInhibit` or a saver-disappeared event before this next
`Inhibit`. -/
def wellMatched (tr : List Act) : Prop :=
  ∀ pfx c rest, tr = pfx ++ Act.inhibit c :: rest → liveAfter pfx = false

/-- One device accepted by probe during enumeration/hotplug: node path,
display name, and the fd its `open(2)` returned. -/
structure DevEntry where
  devname : String
  name : String
  fd : Nat
deriving DecidableEq

/-- Engine state: the C file's mutable globals.  `saver_present` is a
ghost field not present in the C code: it records whether, per the last
name-ownership information processed, a saver owns the well-known name
(the specification's "Saver state" boolean); it is needed to phrase the
specification's DISARMED/ARMED distinction. -/
structure Eng where
  g_cookie : Nat
  timer_enabled : Bool
  monitor_started : Bool
  g_joysticks : List joystick
  saver_present : Bool
deriving DecidableEq

/-- Specification state abstraction.  Modelled from the spec: DISARMED =
saver absent; ARMED_IDLE = saver present, no cookie, timeout disabled;
ARMED_ACTIVE = saver present, cookie live, timeout armed.  The
non-cookie markers (saver presence and timeout armed) select the state,
so that the claimed "cookie nonzero iff ARMED_ACTIVE" is a genuine
invariant rather than a definition. -/
inductive EngineState where
  | DISARMED
  | ARMED_IDLE
  | ARMED_ACTIVE
deriving DecidableEq

/-- The abstraction map from engine state to specification state. -/
def specState (s : Eng) : EngineState :=
  if s.saver_present = false then EngineState.DISARMED
  else if s.timer_enabled then EngineState.ARMED_ACTIVE
  else EngineState.ARMED_IDLE

/-- Embedding of `joystick_enumerate`'s effect on the set: each device
accepted by the probe (and whose `open` succeeded) is handed to
`joystick_add`, which appends it.  `devs` is the enumeration outcome
delivered by the device subsystem. -/
def joystick_enumerate (js : List joystick) (devs : List DevEntry) :
    List joystick :=
  devs.foldl (fun a d => joystick_add_ok a d.fd d.devname d.name) js

/-- Records produced by an enumeration starting at slot `base`. -/
def mk_records (base : Nat) : List DevEntry → List joystick
  | [] => []
  | d :: ds =>
    { fd := d.fd, devname := d.devname, name := d.name,
      srcUserdata := base, n_events := 0 } :: mk_records (base + 1) ds

/-- Embedding of `on_screen_saver_appeared`: enumerate joystick devices
and start the hotplug monitor.  The cookie and the timer are untouched. -/
def on_screen_saver_appeared (s : Eng) (devs : List DevEntry) :
    Eng × List Act :=
  ({ s with g_joysticks := joystick_enumerate s.g_joysticks devs,
            monitor_started := true,
            saver_present := true }, [])

/-- Embedding of `on_screen_saver_disappeared`: if a cookie is live, drop
it locally (no bus call — the remote is gone) and disable the timer; then
stop the hotplug monitor and drain the Joystick Set. -/
def on_screen_saver_disappeared (s : Eng) : Eng × List Act :=
  let s1 := if s.g_cookie ≠ 0
            then { s with g_cookie := 0, timer_enabled := false }
            else s
  ({ s1 with monitor_started := false,
             g_joysticks := joystick_del_all s1.g_joysticks,
             saver_present := false }, [Act.saverGone])

/-- Embedding of `on_name_owner_changed`, after the message read
succeeded: ignore signals for other names; an empty `new_owner` means the
saver disappeared, anything else (the `old_owner` is never examined)
means it appeared.  `devs` is the enumeration outcome used on the
appeared path. -/
def on_name_owner_changed (s : Eng) (name _old_owner new_owner : String)
    (devs : List DevEntry) : Eng × List Act :=
  if name = SAVER then
    if new_owner = "" then on_screen_saver_disappeared s
    else on_screen_saver_appeared s devs
  else (s, [])

/-- What `read(fd, event, sizeof(event))` produced: a full record, or
anything else (`r != sizeof(event)`) together with the errno value the
code then inspects. -/
inductive ReadRes where
  | full (ev : input_event)
  | notFull (errnoVal : Nat)
deriving DecidableEq

/-- Embedding of `on_joystick_read`, the I/O callback of the record at
slot `i`.  `c` is the cookie the saver returns if `Inhibit` is called.
On a full record: count the event; a button press ensures an inhibit is
live (calling `Inhibit` only when no cookie is held) and (re)arms the
one-shot quiet timer.  On anything else: ENODEV removes the record
(silently); any other errno is logged and the callback returns with the
record still in the set. -/
def on_joystick_read (s : Eng) (i : Nat) (res : ReadRes) (c : Nat) :
    Eng × List Act :=
  match res with
  | ReadRes.notFull e =>
    if e = ENODEV then
      ({ s with g_joysticks := joystick_del s.g_joysticks i }, [])
    else (s, [])
  | ReadRes.full ev =>
    let s1 := { s with g_joysticks := bump_events s.g_joysticks i }
    if ¬ is_button_press ev then (s1, [])
    else if s.g_cookie = 0 then
      ({ s1 with g_cookie := c, timer_enabled := true }, [Act.inhibit c])
    else ({ s1 with timer_enabled := true }, [])

/-- Embedding of `saver_uninhibit`: a no-op on cookie 0; otherwise the
`UnInhibit` bus call, after which the cookie is cleared. -/
def saver_uninhibit (cookie : Nat) : Nat × List Act :=
  if cookie = 0 then (cookie, [])
  else (0, [Act.uninhibit cookie])

/-- Embedding of `on_timer`: the one-shot quiet timer fired (sd-event
leaves a fired one-shot source disabled) and the inhibition is released.
The C callback `assert`s that the cookie is nonzero on entry; the safety
claim shows the assertion holds in every reachable state. -/
def on_timer (s : Eng) : Eng × List Act :=
  let r := saver_uninhibit s.g_cookie
  ({ s with g_cookie := r.1, timer_enabled := false }, r.2)

/-- The asynchronous events driving the Activity Engine. -/
inductive Event where
  /-- a `NameOwnerChanged` bus signal; `devs` is the device-subsystem
  enumeration outcome consumed if the saver (re)appeared -/
  | nameOwner (name old_owner new_owner : String) (devs : List DevEntry)
  /-- read readiness on the joystick at slot `i`; `c` is the saver's
  cookie should `Inhibit` be called -/
  | joyRead (i : Nat) (res : ReadRes) (c : Nat)
  /-- the quiet timer fired -/
  | timerFire

/-- Conditions under which an event can be delivered: a read callback
only fires for a registered slot and a well-behaved saver never returns
cookie 0; the timer only fires while enabled; an enumeration only
completes without tripping the capacity assert when it fits (beyond it
the process aborts and no further events occur). -/
def eguard (s : Eng) : Event → Prop
  | Event.nameOwner name _ new_owner devs =>
      name = SAVER → new_owner ≠ "" →
        s.g_joysticks.length + devs.length ≤ MAX_JOYSTICKS
  | Event.joyRead i _ c => i < s.g_joysticks.length ∧ c ≠ 0
  | Event.timerFire => s.timer_enabled = true

/-- Dispatch one event to its callback. -/
def stepE (s : Eng) : Event → Eng × List Act
  | Event.nameOwner n o ne devs => on_name_owner_changed s n o ne devs
  | Event.joyRead i res c => on_joystick_read s i res c
  | Event.timerFire => on_timer s

/-- Engine state after startup (`timer_init` creates the timer disabled;
no cookie, no devices, monitor not started, no saver seen yet).  The
`NameHasOwner`-probe path of `start` is the same transition as a
saver-appeared event. -/
def init_state : Eng :=
  { g_cookie := 0, timer_enabled := false, monitor_started := false,
    g_joysticks := [], saver_present := false }

/-- Reachability: the states and action traces produced by any sequence
of deliverable events from startup. -/
inductive Reaches : Eng → List Act → Prop where
  | init : Reaches init_state []
  | step {s : Eng} {tr : List Act} (e : Event) :
      Reaches s tr → eguard s e →
      Reaches (stepE s e).1 (tr ++ (stepE s e).2)

/-- Inductive invariant of the engine: the cookie is live exactly when
the saver is present and the quiet timer armed, and with no saver present
the set is drained and the timer disabled. -/
def EngInv (s : Eng) : Prop :=
  ((s.g_cookie ≠ 0) ↔ (s.saver_present = true ∧ s.timer_enabled = true))
  ∧ (s.saver_present = false → s.g_joysticks = [] ∧ s.timer_enabled = false)

/-- Concrete event: the saver appears and enumeration finds one pad. -/
def ev_appear : Event :=
  Event.nameOwner SAVER "" ":1.7" [{ devname := "/dev/input/event5",
                                     name := "Pad", fd := 3 }]

/-- Concrete event: a button release on the tracked pad; the saver would
answer `Inhibit` with cookie 42. -/
def ev_press : Event :=
  Event.joyRead 0 (ReadRes.full { type := 1, code := 304, value := 0 }) 42

/-- Concrete engine state with one tracked joystick, a live cookie and
the timer armed. -/
def s_one : Eng :=
  { g_cookie := 7, timer_enabled := true, monitor_started := true,
    g_joysticks := [{ fd := 3, devname := "/dev/input/event5",
                      name := "Pad", srcUserdata := 0, n_events := 4 }],
    saver_present := true }

/-! ## Helper lemmas about the Joystick Set operations -/

theorem joystick_destroy_length (js : List joystick) (n : Nat)
    (h : ¬ js.length = 0) :
    (joystick_destroy js n).length = js.length - 1 := by
  unfold joystick_destroy
  rw [if_neg h]
  split <;> simp

theorem joystick_del_all_eq_nil (js : List joystick) :
    joystick_del_all js = [] := by
  unfold joystick_del_all
  split
  · next h => exact List.eq_nil_of_length_eq_zero h
  · next h => exact joystick_del_all_eq_nil _
termination_by js.length
decreasing_by
  simp only [joystick_del]
  rw [joystick_destroy_length js _ (by assumption)]
  omega

theorem del_all_iters_eq_length (js : List joystick) :
    del_all_iters js = js.length := by
  unfold del_all_iters
  split
  · next h => omega
  · next h =>
    rw [del_all_iters_eq_length (joystick_del js (js.length - 1))]
    simp only [joystick_del]
    rw [joystick_destroy_length js _ h]
    omega
termination_by js.length
decreasing_by
  simp only [joystick_del]
  rw [joystick_destroy_length js _ (by assumption)]
  omega

theorem bump_events_length (js : List joystick) (i : Nat) :
    (bump_events js i).length = js.length := by
  induction js generalizing i with
  | nil => rfl
  | cons j js ih => cases i <;> simp [bump_events, ih]

theorem n_events_at_bump (js : List joystick) (i : Nat)
    (h : i < js.length) :
    n_events_at (bump_events js i) i = n_events_at js i + 1 := by
  induction js generalizing i with
  | nil => simp at h
  | cons j js ih =>
    cases i with
    | zero => simp [bump_events, n_events_at]
    | succ n =>
      simp only [bump_events, n_events_at, List.getD_cons_succ]
      exact ih n (by simpa using h)

/-- Claim C10: the drain operation `joystick_del_all` terminates for every
starting set size and leaves the set empty; each iteration releases the
last record, whose destroy callback decrements the size by one, so the
loop performs exactly `size` iterations and ends with size 0. -/
theorem c10_del_all_terminates (js : List joystick) :
    joystick_del_all js = [] ∧ del_all_iters js = js.length :=
  ⟨joystick_del_all_eq_nil js, del_all_iters_eq_length js⟩

/-- Claim C7 (code evaluated at the failing input): for a joystick whose
parent carries a `NAME` property equal to the empty string, the probe
returns the empty string as the display name — not the node path the
specification promises — because `!name[0]` in the C source tests the
value pointer, not the first character.  When the property is absent the
fallback does fire. -/
theorem c7_empty_name_used_verbatim :
    joystick_probe dev_empty_name =
        Except.ok (some ("/dev/input/event7", ""))
    ∧ joystick_probe dev_no_name =
        Except.ok (some ("/dev/input/event7", "/dev/input/event7")) :=
  ⟨rfl, rfl⟩

/-- Counterexample to claim C5 as stated: with the set already holding 16
devices, an attempted add does not log-and-reject with the set unchanged
and the process running — the `assert(n_joysticks < MAX_JOYSTICKS)` at the
top of `joystick_add` fails and the process aborts. -/
theorem c5_counterexample :
    joystick_add full16 (some 99) true "/dev/input/event99" "PadC"
      = AddResult.assertAbort := by
  rfl

/-- Claim C5 as amended: the Joystick Set holds at most 16 devices, and
an add attempted at (or beyond) capacity trips the assertion and aborts
the process, whatever the open/registration outcomes would have been. -/
theorem c5_overflow_aborts (js : List joystick) (openRes : Option Nat)
    (ioOk : Bool) (dn nm : String) (h : ¬ js.length < MAX_JOYSTICKS) :
    joystick_add js openRes ioOk dn nm = AddResult.assertAbort := by
  unfold joystick_add
  rw [if_neg h]

theorem c5_witness :
    joystick_add full16 (some 100) false "/dev/input/event12" "PadD"
      = AddResult.assertAbort :=
  c5_overflow_aborts full16 (some 100) false "/dev/input/event12" "PadD"
    (by decide)

/-- Counterexample to claim C4 as stated: a read failure with errno EIO
(=5, not ENODEV) on the only tracked joystick is logged but the record is
NOT removed — the callback returns with the set (still of size 1) and the
whole engine state unchanged, and no bus call is made. -/
theorem c4_counterexample :
    on_joystick_read s_one 0 (ReadRes.notFull 5) 1 = (s_one, [])
    ∧ s_one.g_joysticks.length = 1 :=
  ⟨rfl, rfl⟩

/-- Claim C4 as amended: when the read does not return a full event
record, the errno value decides the outcome: ENODEV removes the record
from the Joystick Set (silently, shrinking it by one); any other errno is
logged and the record remains — the callback leaves the whole state
unchanged.  No bus call is made in either case. -/
theorem c4_read_failure (s : Eng) (i e c : Nat)
    (h : i < s.g_joysticks.length) :
    (e = ENODEV →
      (on_joystick_read s i (ReadRes.notFull e) c).1.g_joysticks.length
          = s.g_joysticks.length - 1
      ∧ (on_joystick_read s i (ReadRes.notFull e) c).2 = [])
    ∧ (e ≠ ENODEV →
      on_joystick_read s i (ReadRes.notFull e) c = (s, [])) := by
  constructor
  · intro he
    subst he
    simp only [on_joystick_read, if_pos rfl]
    refine ⟨?_, rfl⟩
    simp only [joystick_del]
    exact joystick_destroy_length _ _ (by omega)
  · intro he
    simp [on_joystick_read, he]

theorem c4_witness :
    (on_joystick_read s_one 0 (ReadRes.notFull ENODEV) 1).1.g_joysticks.length
        = s_one.g_joysticks.length - 1
    ∧ (on_joystick_read s_one 0 (ReadRes.notFull ENODEV) 1).2 = [] :=
  (c4_read_failure s_one 0 ENODEV 1 (by decide)).1 rfl

/-- Claim C3: an input event is a button press exactly when its type is
EV_KEY and its value is 0; every other full event leaves the cookie, the
timer, the specification state and the set membership unchanged, makes no
bus call, and only increments the per-device event counter. -/
theorem c3_button_press (ev : input_event) (s : Eng) (i c : Nat)
    (hb : is_button_press ev = false) :
    (is_button_press ev = true ↔ (ev.type = EV_KEY ∧ ev.value = 0))
    ∧ (on_joystick_read s i (ReadRes.full ev) c).1.g_cookie = s.g_cookie
    ∧ (on_joystick_read s i (ReadRes.full ev) c).1.timer_enabled
        = s.timer_enabled
    ∧ specState (on_joystick_read s i (ReadRes.full ev) c).1 = specState s
    ∧ (on_joystick_read s i (ReadRes.full ev) c).2 = []
    ∧ (on_joystick_read s i (ReadRes.full ev) c).1.g_joysticks
        = bump_events s.g_joysticks i
    ∧ (i < s.g_joysticks.length →
        n_events_at (on_joystick_read s i (ReadRes.full ev) c).1.g_joysticks i
          = n_events_at s.g_joysticks i + 1) := by
  refine ⟨?_, ?_, ?_, ?_, ?_, ?_, ?_⟩
  · simp [is_button_press, EV_KEY]
  · simp [on_joystick_read, hb]
  · simp [on_joystick_read, hb]
  · simp [on_joystick_read, hb, specState]
  · simp [on_joystick_read, hb]
  · simp [on_joystick_read, hb]
  · intro hi
    simp only [on_joystick_read, hb]
    simp only [Bool.false_eq_true, not_false_eq_true, if_pos]
    exact n_events_at_bump s.g_joysticks i hi

theorem c3_witness :
    (is_button_press { type := 3, code := 0, value := 1 } = true ↔
      (({ type := 3, code := 0, value := 1 } : input_event).type = EV_KEY
        ∧ ({ type := 3, code := 0, value := 1 } : input_event).value = 0))
    ∧ (on_joystick_read s_one 0
        (ReadRes.full { type := 3, code := 0, value := 1 }) 1).1.g_cookie
        = s_one.g_cookie
    ∧ (on_joystick_read s_one 0
        (ReadRes.full { type := 3, code := 0, value := 1 }) 1).1.timer_enabled
        = s_one.timer_enabled
    ∧ specState (on_joystick_read s_one 0
        (ReadRes.full { type := 3, code := 0, value := 1 }) 1).1
        = specState s_one
    ∧ (on_joystick_read s_one 0
        (ReadRes.full { type := 3, code := 0, value := 1 }) 1).2 = []
    ∧ (on_joystick_read s_one 0
        (ReadRes.full { type := 3, code := 0, value := 1 }) 1).1.g_joysticks
        = bump_events s_one.g_joysticks 0
    ∧ (0 < s_one.g_joysticks.length →
        n_events_at (on_joystick_read s_one 0
          (ReadRes.full { type := 3, code := 0, value := 1 }) 1).1.g_joysticks 0
          = n_events_at s_one.g_joysticks 0 + 1) :=
  c3_button_press { type := 3, code := 0, value := 1 } s_one 0 1 (by decide)

/-! ## Saver appearance and disappearance -/

theorem joystick_enumerate_eq (js : List joystick) (devs : List DevEntry) :
    joystick_enumerate js devs = js ++ mk_records js.length devs := by
  induction devs generalizing js with
  | nil => simp [joystick_enumerate, mk_records]
  | cons d ds ih =>
    simp only [joystick_enumerate, List.foldl_cons] at *
    rw [ih (joystick_add_ok js d.fd d.devname d.name)]
    simp [joystick_add_ok, mk_records, List.append_assoc]

theorem on_screen_saver_disappeared_eq (s : Eng)
    (hte : s.g_cookie = 0 → s.timer_enabled = false) :
    on_screen_saver_disappeared s =
      ({ g_cookie := 0, timer_enabled := false, monitor_started := false,
         g_joysticks := [], saver_present := false }, [Act.saverGone]) := by
  obtain ⟨ck, te, ms, jsl, sp⟩ := s
  simp only [on_screen_saver_disappeared]
  by_cases hck : ck = 0
  · subst hck
    have hte' : te = false := hte rfl
    subst hte'
    simp [joystick_del_all_eq_nil]
  · simp [hck, joystick_del_all_eq_nil]

/-- Claim C2: after a saver-disappeared event (`NameOwnerChanged` for the
saver name with empty new owner) the engine issues no `UnInhibit` bus
call even if a cookie was live: the cookie is cleared locally, the
timeout disabled, the hotplug monitor stopped and the Joystick Set
drained, reaching DISARMED.  The hypothesis is the timer/cookie coupling
that holds in every reachable state (the safety claim). -/
theorem c2_saver_disappeared (s : Eng) (oldo : String) (devs : List DevEntry)
    (hts : s.timer_enabled = true → s.g_cookie ≠ 0) :
    on_name_owner_changed s SAVER oldo "" devs =
      ({ g_cookie := 0, timer_enabled := false, monitor_started := false,
         g_joysticks := [], saver_present := false }, [Act.saverGone])
    ∧ (∀ c, Act.uninhibit c ∉ (on_name_owner_changed s SAVER oldo "" devs).2)
    ∧ specState (on_name_owner_changed s SAVER oldo "" devs).1
        = EngineState.DISARMED := by
  have hte : s.g_cookie = 0 → s.timer_enabled = false := by
    intro h0
    cases hti : s.timer_enabled
    · rfl
    · exact absurd h0 (hts hti)
  have h1 : on_name_owner_changed s SAVER oldo "" devs
      = on_screen_saver_disappeared s := by
    simp [on_name_owner_changed]
  rw [h1, on_screen_saver_disappeared_eq s hte]
  refine ⟨rfl, ?_, ?_⟩
  · intro c
    simp
  · simp [specState]

theorem c2_witness :
    on_name_owner_changed s_one SAVER ":1.5" "" [] =
      ({ g_cookie := 0, timer_enabled := false, monitor_started := false,
         g_joysticks := [], saver_present := false }, [Act.saverGone])
    ∧ (∀ c, Act.uninhibit c ∉ (on_name_owner_changed s_one SAVER ":1.5" "" []).2)
    ∧ specState (on_name_owner_changed s_one SAVER ":1.5" "" []).1
        = EngineState.DISARMED :=
  c2_saver_disappeared s_one ":1.5" [] (fun _ => by decide)

/-- Claim C9: the `NameOwnerChanged` handler classifies any signal for
the saver name with a non-empty new owner as "saver appeared" regardless
of the old owner, so an ownership transfer while already armed re-runs
device enumeration without first draining the Joystick Set: the old
records are all retained and one fresh record (with the fd its new
`open(2)` returned) is appended per enumerated device. -/
theorem c9_transfer_reenumerates (s : Eng) (oldo newo : String)
    (devs : List DevEntry) (h : newo ≠ "") :
    on_name_owner_changed s SAVER oldo newo devs
        = on_screen_saver_appeared s devs
    ∧ (on_name_owner_changed s SAVER oldo newo devs).1.g_joysticks
        = s.g_joysticks ++ mk_records s.g_joysticks.length devs
    ∧ (on_name_owner_changed s SAVER oldo newo devs).2 = [] := by
  have h1 : on_name_owner_changed s SAVER oldo newo devs
      = on_screen_saver_appeared s devs := by
    simp [on_name_owner_changed, h]
  refine ⟨h1, ?_, ?_⟩ <;> rw [h1] <;>
    simp [on_screen_saver_appeared, joystick_enumerate_eq]

theorem c9_witness :
    on_name_owner_changed s_one SAVER ":1.5" ":1.42"
        [{ devname := "/dev/input/event5", name := "Pad", fd := 9 }]
      = on_screen_saver_appeared s_one
          [{ devname := "/dev/input/event5", name := "Pad", fd := 9 }]
    ∧ (on_name_owner_changed s_one SAVER ":1.5" ":1.42"
        [{ devname := "/dev/input/event5", name := "Pad", fd := 9 }]).1.g_joysticks
      = s_one.g_joysticks ++ mk_records s_one.g_joysticks.length
          [{ devname := "/dev/input/event5", name := "Pad", fd := 9 }]
    ∧ (on_name_owner_changed s_one SAVER ":1.5" ":1.42"
        [{ devname := "/dev/input/event5", name := "Pad", fd := 9 }]).2 = [] :=
  c9_transfer_reenumerates s_one ":1.5" ":1.42"
    [{ devname := "/dev/input/event5", name := "Pad", fd := 9 }] (by decide)

/-! ## Invariants of add/remove sequences on the Joystick Set -/

theorem getD_append_lt {js l : List joystick} {i : Nat} (h : i < js.length) :
    (js ++ l).getD i default = js.getD i default := by
  simp [List.getD_eq_getElem?_getD, List.getElem?_append_left h]

theorem getD_concat_self {js : List joystick} {x : joystick} :
    (js ++ [x]).getD js.length default = x := by
  simp [List.getD_eq_getElem?_getD, List.getElem?_concat_length]

theorem getD_dropLast_lt {js : List joystick} {i : Nat}
    (h : i < js.length - 1) :
    js.dropLast.getD i default = js.getD i default := by
  rw [List.getD_eq_getElem?_getD, List.getD_eq_getElem?_getD,
    List.getElem?_dropLast, if_pos h]

theorem getD_set_self {js : List joystick} {i : Nat} {a : joystick}
    (h : i < js.length) :
    (js.set i a).getD i default = a := by
  simp [List.getD_eq_getElem?_getD, List.getElem?_set_self h]

theorem getD_set_ne {js : List joystick} {i j : Nat} {a : joystick}
    (h : i ≠ j) :
    (js.set i a).getD j default = js.getD j default := by
  simp [List.getD_eq_getElem?_getD, List.getElem?_set_ne h]

theorem getD_mem {js : List joystick} {i : Nat} (h : i < js.length) :
    js.getD i default ∈ js := by
  rw [List.getD_eq_getElem?_getD, List.getElem?_eq_getElem h]
  exact List.getElem_mem h

theorem fd_mem_fds {js : List joystick} {i : Nat} (h : i < js.length) :
    (js.getD i default).fd ∈ fds js :=
  List.mem_map_of_mem _ (getD_mem h)

theorem joystick_destroy_eq_mid {js : List joystick} {n : Nat}
    (h0 : ¬ js.length = 0) (hmid : n < js.length - 1) :
    joystick_destroy js n =
      (js.set n { js.getD (js.length - 1) default with
                  srcUserdata := n }).dropLast := by
  unfold joystick_destroy
  rw [if_neg h0, if_pos hmid]

theorem joystick_destroy_eq_last {js : List joystick} {n : Nat}
    (h0 : ¬ js.length = 0) (hmid : ¬ n < js.length - 1) :
    joystick_destroy js n = js.dropLast := by
  unfold joystick_destroy
  rw [if_neg h0, if_neg hmid]

theorem joystick_destroy_getD {js : List joystick} {n i : Nat}
    (hn : n < js.length) (hi : i < js.length - 1) :
    (joystick_destroy js n).getD i default =
      if n = i ∧ n < js.length - 1
      then { js.getD (js.length - 1) default with srcUserdata := n }
      else js.getD i default := by
  have h0 : ¬ js.length = 0 := by omega
  by_cases hmid : n < js.length - 1
  · rw [joystick_destroy_eq_mid h0 hmid]
    rw [getD_dropLast_lt (by rw [List.length_set]; omega)]
    by_cases hni : n = i
    · subst hni
      rw [getD_set_self (by omega)]
      rw [if_pos ⟨rfl, hmid⟩]
    · rw [getD_set_ne hni]
      rw [if_neg (by tauto)]
  · rw [joystick_destroy_eq_last h0 hmid, getD_dropLast_lt hi]
    rw [if_neg (by tauto)]

theorem applyOp_preserves {js : List joystick} {op : JOp}
    (hlen : js.length ≤ MAX_JOYSTICKS) (hb : BackPtrOk js)
    (hf : FdsDistinct js) (hg : opGuard js op) :
    (applyOp js op).length ≤ MAX_JOYSTICKS
    ∧ BackPtrOk (applyOp js op) ∧ FdsDistinct (applyOp js op) := by
  cases op with
  | add fd dn nm =>
    obtain ⟨hcap, hfresh⟩ := hg
    refine ⟨?_, ?_, ?_⟩
    · simp only [applyOp, joystick_add_ok, List.length_append,
        List.length_singleton]
      omega
    · intro i h
      simp only [applyOp, joystick_add_ok, List.length_append,
        List.length_singleton] at h ⊢
      rcases Nat.lt_or_ge i js.length with hi | hi
      · rw [getD_append_lt hi]
        exact hb i hi
      · have hieq : i = js.length := by omega
        subst hieq
        rw [getD_concat_self]
    · intro i j hi hj hne
      simp only [applyOp, joystick_add_ok, List.length_append,
        List.length_singleton] at hi hj ⊢
      rcases Nat.lt_or_ge i js.length with hi' | hi' <;>
        rcases Nat.lt_or_ge j js.length with hj' | hj'
      · rw [getD_append_lt hi', getD_append_lt hj']
        exact hf i j hi' hj' hne
      · have hjeq : j = js.length := by omega
        subst hjeq
        rw [getD_append_lt hi', getD_concat_self]
        show (js.getD i default).fd ≠ fd
        intro hEq
        exact hfresh (hEq ▸ fd_mem_fds hi')
      · have hieq : i = js.length := by omega
        subst hieq
        rw [getD_append_lt hj', getD_concat_self]
        show fd ≠ (js.getD j default).fd
        intro hEq
        exact hfresh (hEq.symm ▸ fd_mem_fds hj')
      · exact absurd (by omega : i = j) hne
  | remove n =>
    have hn : n < js.length := hg
    have hne0 : ¬ js.length = 0 := by omega
    refine ⟨?_, ?_, ?_⟩
    · simp only [applyOp, joystick_del]
      rw [joystick_destroy_length js n hne0]
      omega
    · intro i h
      simp only [applyOp, joystick_del] at h ⊢
      rw [joystick_destroy_length js n hne0] at h
      rw [joystick_destroy_getD hn h]
      split
      · next hc => exact hc.1
      · next hc => exact hb i (by omega)
    · intro i j hi hj hne
      simp only [applyOp, joystick_del] at hi hj ⊢
      rw [joystick_destroy_length js n hne0] at hi hj
      rw [joystick_destroy_getD hn hi, joystick_destroy_getD hn hj]
      split
      · next hci =>
        rw [if_neg (by omega)]
        show (js.getD (js.length - 1) default).fd
          ≠ (js.getD j default).fd
        exact hf (js.length - 1) j (by omega) (by omega) (by omega)
      · next hci =>
        split
        · next hcj =>
          show (js.getD i default).fd
            ≠ (js.getD (js.length - 1) default).fd
          exact hf i (js.length - 1) (by omega) (by omega) (by omega)
        · next hcj => exact hf i j (by omega) (by omega) hne

theorem applyOp_length {js : List joystick} {op : JOp} (hg : opGuard js op) :
    (applyOp js op).length + countRemoves [op]
      = js.length + countAdds [op] := by
  cases op with
  | add fd dn nm =>
    simp [applyOp, joystick_add_ok, countAdds, countRemoves]
  | remove i =>
    have hi : i < js.length := hg
    simp only [applyOp, joystick_del, countAdds, countRemoves]
    rw [joystick_destroy_length js i (by omega)]
    omega

theorem applyOps_preserves (ops : List JOp) : ∀ js : List joystick,
    ValidOps js ops → js.length ≤ MAX_JOYSTICKS → BackPtrOk js →
    FdsDistinct js →
    (applyOps js ops).length ≤ MAX_JOYSTICKS
    ∧ BackPtrOk (applyOps js ops) ∧ FdsDistinct (applyOps js ops)
    ∧ (applyOps js ops).length + countRemoves ops
        = js.length + countAdds ops := by
  induction ops with
  | nil =>
    intro js _ h1 h2 h3
    exact ⟨by simpa [applyOps] using h1, by simpa [applyOps] using h2,
      by simpa [applyOps] using h3, by simp [applyOps, countAdds, countRemoves]⟩
  | cons op ops ih =>
    intro js hv hlen hb hf
    cases hv with
    | cons hg hv' =>
      obtain ⟨h1, h2, h3⟩ := applyOp_preserves hlen hb hf hg
      obtain ⟨g1, g2, g3, g4⟩ := ih (applyOp js op) hv' h1 h2 h3
      have hL := applyOp_length hg
      refine ⟨?_, ?_, ?_, ?_⟩ <;>
        simp only [applyOps, List.foldl_cons] at g1 g2 g3 g4 ⊢
      · exact g1
      · exact g2
      · exact g3
      · cases op <;>
          simp only [countAdds, countRemoves] at hL g4 ⊢ <;> omega

/-- Claim C6: for every valid sequence of add/remove operations on the
Joystick Set (adds below capacity with a fresh descriptor, removes of a
registered slot), the final size equals adds minus removes, no two active
records share a file descriptor, and every active record's I/O-source
userdata back-pointer equals the slot the record currently occupies
(swap-with-last compaction updates the moved record's back-pointer). -/
theorem c6_set_invariants (ops : List JOp) (h : ValidOps [] ops) :
    (applyOps [] ops).length = countAdds ops - countRemoves ops
    ∧ BackPtrOk (applyOps [] ops) ∧ FdsDistinct (applyOps [] ops) := by
  obtain ⟨h1, h2, h3, h4⟩ := applyOps_preserves ops [] h
    (by simp [MAX_JOYSTICKS])
    (by intro i hlt; simp at hlt)
    (by intro i j hi hj _; simp at hi)
  refine ⟨?_, h2, h3⟩
  simp only [List.length_nil] at h4
  omega

theorem c6_witness :
    (applyOps [] ops_w).length = countAdds ops_w - countRemoves ops_w
    ∧ BackPtrOk (applyOps [] ops_w) ∧ FdsDistinct (applyOps [] ops_w) :=
  c6_set_invariants ops_w
    (ValidOps.cons ⟨by decide, by decide⟩
      (ValidOps.cons ⟨by decide, by decide⟩
        (ValidOps.cons
          (show 0 < (applyOp (applyOp []
              (JOp.add 3 "/dev/input/event3" "PadA"))
              (JOp.add 5 "/dev/input/event5" "PadB")).length by decide)
          (ValidOps.nil _))))

/-! ## The engine invariant over all reachable states -/

theorem liveAcc_append (b : Bool) (tr l : List Act) :
    liveAcc b (tr ++ l) = liveAcc (liveAcc b tr) l := by
  simp [liveAcc, List.foldl_append]

theorem okTrace_append {b : Bool} {tr l : List Act}
    (h1 : okTrace b tr) (h2 : okTrace (liveAcc b tr) l) :
    okTrace b (tr ++ l) := by
  induction tr generalizing b with
  | nil => simpa [liveAcc] using h2
  | cons a tr ih =>
    cases a with
    | inhibit c =>
      obtain ⟨hb, h1'⟩ := h1
      exact ⟨hb, ih h1' (by simpa [liveAcc, actStep] using h2)⟩
    | uninhibit c =>
      exact ih h1 (by simpa [liveAcc, actStep] using h2)
    | saverGone =>
      exact ih h1 (by simpa [liveAcc, actStep] using h2)

theorem okTrace_pfx_live {tr : List Act} : ∀ {b : Bool}, okTrace b tr →
    ∀ pfx c rest, tr = pfx ++ Act.inhibit c :: rest →
      liveAcc b pfx = false := by
  induction tr with
  | nil =>
    intro b _ pfx c rest heq
    exact absurd heq (by simp)
  | cons a tr ih =>
    intro b h pfx c rest heq
    cases pfx with
    | nil =>
      simp only [List.nil_append] at heq
      injection heq with h1 h2
      subst h1
      exact h.1
    | cons p pfx2 =>
      injection heq with h1 h2
      subst h1
      cases a with
      | inhibit c2 => exact ih h.2 pfx2 c rest h2
      | uninhibit c2 => exact ih h pfx2 c rest h2
      | saverGone => exact ih h pfx2 c rest h2

theorem reaches_inv {s : Eng} {tr : List Act} (h : Reaches s tr) :
    EngInv s ∧ okTrace false tr
    ∧ liveAfter tr = decide (s.g_cookie ≠ 0) := by
  induction h with
  | init =>
    exact ⟨⟨by simp [init_state], by simp [init_state]⟩, True.intro,
      by decide⟩
  | step e hr hg ih =>
    obtain ⟨⟨hiff, hdis⟩, hok, hlive⟩ := ih
    rename_i s tr
    obtain ⟨ck, te, ms, jsl, sp⟩ := s
    dsimp only at hiff hdis hlive
    cases e with
    | nameOwner name oldo newo devs =>
      by_cases hname : name = SAVER
      · subst hname
        by_cases hnew : newo = ""
        · subst hnew
          have hte : ck = 0 → te = false := by
            intro h0
            rcases Bool.eq_false_or_eq_true sp with hsp | hsp
            · rcases Bool.eq_false_or_eq_true te with hti | hti
              · exact absurd h0 (hiff.mpr ⟨hsp, hti⟩)
              · exact hti
            · exact (hdis hsp).2
          have hstep : stepE ⟨ck, te, ms, jsl, sp⟩
                (Event.nameOwner SAVER oldo "" devs)
              = ({ g_cookie := 0, timer_enabled := false,
                   monitor_started := false, g_joysticks := [],
                   saver_present := false }, [Act.saverGone]) := by
            show on_name_owner_changed ⟨ck, te, ms, jsl, sp⟩
                SAVER oldo "" devs = _
            unfold on_name_owner_changed
            rw [if_pos rfl, if_pos rfl]
            exact on_screen_saver_disappeared_eq _ hte
          rw [hstep]
          refine ⟨⟨by simp, fun _ => ⟨rfl, rfl⟩⟩,
            okTrace_append hok True.intro, ?_⟩
          show liveAcc false (tr ++ [Act.saverGone]) = _
          rw [liveAcc_append]
          simp [liveAcc, actStep]
        · have hstep : stepE ⟨ck, te, ms, jsl, sp⟩
                (Event.nameOwner SAVER oldo newo devs)
              = (⟨ck, te, true, joystick_enumerate jsl devs, true⟩, []) := by
            show on_name_owner_changed ⟨ck, te, ms, jsl, sp⟩
                SAVER oldo newo devs = _
            unfold on_name_owner_changed
            rw [if_pos rfl, if_neg hnew]
            rfl
          rw [hstep]
          dsimp only
          refine ⟨⟨?_, fun hps => by simp at hps⟩,
            by simpa using hok, by simpa using hlive⟩
          constructor
          · intro hc
            exact ⟨rfl, (hiff.mp hc).2⟩
          · rintro ⟨-, hti⟩
            rcases Bool.eq_false_or_eq_true sp with hsp | hsp
            · exact hiff.mpr ⟨hsp, hti⟩
            · exact absurd hti (by simp [(hdis hsp).2])
      · have hstep : stepE ⟨ck, te, ms, jsl, sp⟩
              (Event.nameOwner name oldo newo devs)
            = (⟨ck, te, ms, jsl, sp⟩, []) := by
          show on_name_owner_changed ⟨ck, te, ms, jsl, sp⟩
              name oldo newo devs = _
          unfold on_name_owner_changed
          rw [if_neg hname]
        rw [hstep]
        exact ⟨⟨hiff, hdis⟩, by simpa using hok, by simpa using hlive⟩
    | joyRead i res c =>
      obtain ⟨hi, hc⟩ := hg
      dsimp only at hi
      have hsp : sp = true := by
        rcases Bool.eq_false_or_eq_true sp with hsp2 | hsp2
        · exact hsp2
        · rw [(hdis hsp2).1] at hi
          simp at hi
      cases res with
      | notFull e2 =>
        by_cases he : e2 = ENODEV
        · have hstep : stepE ⟨ck, te, ms, jsl, sp⟩
                (Event.joyRead i (ReadRes.notFull e2) c)
              = (⟨ck, te, ms, joystick_del jsl i, sp⟩, []) := by
            simp [stepE, on_joystick_read, he]
          rw [hstep]
          exact ⟨⟨hiff, fun hps => absurd hps (by simp [hsp])⟩,
            by simpa using hok, by simpa using hlive⟩
        · have hstep : stepE ⟨ck, te, ms, jsl, sp⟩
                (Event.joyRead i (ReadRes.notFull e2) c)
              = (⟨ck, te, ms, jsl, sp⟩, []) := by
            simp [stepE, on_joystick_read, he]
          rw [hstep]
          exact ⟨⟨hiff, hdis⟩, by simpa using hok, by simpa using hlive⟩
      | full ev =>
        by_cases hbp : is_button_press ev = true
        · by_cases hck : ck = 0
          · have hstep : stepE ⟨ck, te, ms, jsl, sp⟩
                  (Event.joyRead i (ReadRes.full ev) c)
                = (⟨c, true, ms, bump_events jsl i, sp⟩,
                   [Act.inhibit c]) := by
              simp [stepE, on_joystick_read, hbp, hck]
            rw [hstep]
            have hlf : liveAcc false tr = false := by
              rw [show liveAcc false tr = liveAfter tr from rfl, hlive]
              simp [hck]
            refine ⟨⟨by simp [hc, hsp], fun hps => absurd hps (by simp [hsp])⟩,
              okTrace_append hok ⟨hlf, True.intro⟩, ?_⟩
            show liveAcc false (tr ++ [Act.inhibit c]) = _
            rw [liveAcc_append]
            simp [liveAcc, actStep, hc]
          · have hstep : stepE ⟨ck, te, ms, jsl, sp⟩
                  (Event.joyRead i (ReadRes.full ev) c)
                = (⟨ck, true, ms, bump_events jsl i, sp⟩, []) := by
              simp [stepE, on_joystick_read, hbp, hck]
            rw [hstep]
            exact ⟨⟨by simp [hck, hsp], fun hps => absurd hps (by simp [hsp])⟩,
              by simpa using hok, by simpa using hlive⟩
        · have hstep : stepE ⟨ck, te, ms, jsl, sp⟩
                (Event.joyRead i (ReadRes.full ev) c)
              = (⟨ck, te, ms, bump_events jsl i, sp⟩, []) := by
            simp [stepE, on_joystick_read, hbp]
          rw [hstep]
          exact ⟨⟨hiff, fun hps => absurd hps (by simp [hsp])⟩,
            by simpa using hok, by simpa using hlive⟩
    | timerFire =>
      have hte : te = true := hg
      have hck : ¬ ck = 0 := by
        rcases Bool.eq_false_or_eq_true sp with hsp | hsp
        · exact hiff.mpr ⟨hsp, hte⟩
        · exact absurd hte (by simp [(hdis hsp).2])
      have hstep : stepE ⟨ck, te, ms, jsl, sp⟩ Event.timerFire
          = (⟨0, false, ms, jsl, sp⟩, [Act.uninhibit ck]) := by
        simp [stepE, on_timer, saver_uninhibit, hck]
      rw [hstep]
      refine ⟨⟨by simp, fun hps => ⟨(hdis hps).1, rfl⟩⟩,
        okTrace_append hok True.intro, ?_⟩
      show liveAcc false (tr ++ [Act.uninhibit ck]) = _
      rw [liveAcc_append]
      simp [liveAcc, actStep]

/-- Claim C1: in every reachable state of the Activity Engine, the
inhibit cookie is nonzero exactly when the specification state is
ARMED_ACTIVE, and in the produced action trace every `Inhibit` is matched
by a subsequent `UnInhibit` or saver disappearance before the next
`Inhibit` is issued (at most one live cookie, no double inhibits, no
leaked cookies). -/
theorem c1_cookie_iff_armed_active (s : Eng) (tr : List Act)
    (h : Reaches s tr) :
    ((s.g_cookie ≠ 0) ↔ specState s = EngineState.ARMED_ACTIVE)
    ∧ wellMatched tr := by
  obtain ⟨⟨hiff, hdis⟩, hok, -⟩ := reaches_inv h
  constructor
  · rw [hiff]
    unfold specState
    constructor
    · rintro ⟨hsp, hti⟩
      rw [hsp, hti]
      simp
    · intro hst
      rcases Bool.eq_false_or_eq_true s.saver_present with hsp | hsp
      · rcases Bool.eq_false_or_eq_true s.timer_enabled with hti | hti
        · exact ⟨hsp, hti⟩
        · rw [hsp, hti] at hst
          simp at hst
      · rw [hsp] at hst
        simp at hst
  · intro pfx c rest heq
    exact okTrace_pfx_live hok pfx c rest heq

theorem c1_witness :
    (((stepE (stepE init_state ev_appear).1 ev_press).1.g_cookie ≠ 0) ↔
      specState (stepE (stepE init_state ev_appear).1 ev_press).1
        = EngineState.ARMED_ACTIVE)
    ∧ wellMatched (([] ++ (stepE init_state ev_appear).2)
        ++ (stepE (stepE init_state ev_appear).1 ev_press).2) :=
  c1_cookie_iff_armed_active _ _
    (Reaches.step ev_press
      (Reaches.step ev_appear Reaches.init (fun _ _ => by decide))
      ⟨by decide, by decide⟩)

/-- Claim C8: in every reachable state, whenever the quiet-timer event
source is enabled the inhibit cookie is nonzero; hence the
`assert(g_cookie)` at the start of `on_timer` (which only runs while the
timer is enabled) never fails. -/
theorem c8_timer_implies_cookie (s : Eng) (tr : List Act)
    (h : Reaches s tr) (ht : s.timer_enabled = true) : s.g_cookie ≠ 0 := by
  obtain ⟨⟨hiff, hdis⟩, -, -⟩ := reaches_inv h
  rcases Bool.eq_false_or_eq_true s.saver_present with hsp | hsp
  · exact hiff.mpr ⟨hsp, ht⟩
  · exact absurd ht (by simp [(hdis hsp).2])

theorem c8_witness :
    (stepE (stepE init_state ev_appear).1 ev_press).1.g_cookie ≠ 0 :=
  c8_timer_implies_cookie _ _
    (Reaches.step ev_press
      (Reaches.step ev_appear Reaches.init (fun _ _ => by decide))
      ⟨by decide, by decide⟩)
    (by decide)
